import Mathlib

/-!
Verification of the sdc-imgapi-cli core: command registry and dispatch,
global/per-command option-schema merging, unknown-option detection,
streaming-transfer integrity verification, batch-error aggregation and the
tabular formatter.  Definitions are shallow embeddings of the repository's
JavaScript sources (the 2016 revision of lib/cli.js and lib/errors.js, plus
the earlier revisions where a claim refers to them); the `nopt` argument
parser is an external npm dependency and is modelled from the spec.
-/

namespace ImgapiCli

/-- Association-list lookup, the JS object property read `o[k]`. -/
def lookupA {α : Type} : List (String × α) → String → Option α
  | [], _ => none
  | kv :: rest, k => if kv.1 = k then some kv.2 else lookupA rest k

/-- JS object property write `o[k] = v`: replaces the value in place when the
key exists (key enumeration order preserved), otherwise appends the key,
matching `Object.keys` insertion order for string keys. -/
def setA {α : Type} : List (String × α) → String → α → List (String × α)
  | [], k, v => [(k, v)]
  | kv :: rest, k, v => if kv.1 = k then (k, v) :: rest else kv :: setA rest k v

/-- The keys of a JS object, in `Object.keys` order. -/
def keysA {α : Type} (l : List (String × α)) : List String :=
  l.map (fun kv => kv.1)

/-- The value types appearing in this repository's `nopt` long-option
schemas: `Boolean`, `String`, `Number`, and `[String, Array]`. -/
inductive OptType where
  | bool
  | str
  | num
  | strArray
  deriving DecidableEq, Repr

/-- A parsed option value.  Numeric conversion of `Number`-typed values is
not modelled (the raw token is kept); no claim depends on it. -/
inductive OptVal where
  | vBool (b : Bool)
  | vStr (s : String)
  | vArr (elems : List String)
  deriving DecidableEq, Repr

/-- A long-option schema: flag name to declared type. -/
abbrev Schema := List (String × OptType)

/-- A short-option schema: short name to the long flag it expands to
(the source stores e.g. `j: ['--json']`; we keep the bare long name). -/
abbrev ShortSchema := List (String × String)

/-- Merge of two option schemas, the second taking precedence on name
collision: embeds `Object.keys(extra).forEach(k => base[k] = extra[k])`
applied to a copy of `base` (dispatch, part_002 lines 507-516). -/
def mergeA {α : Type} (base extra : List (String × α)) : List (String × α) :=
  extra.foldl (fun acc kv => setA acc kv.1 kv.2) base

/-- Split a character list at its first occurrence of `sep`; `none` when
the separator does not occur. -/
def breakAtChar (sep : Char) : List Char → Option (List Char × List Char)
  | [] => none
  | c :: rest =>
    if c = sep then some ([], rest)
    else
      match breakAtChar sep rest with
      | none => none
      | some (a, b) => some (c :: a, b)

/-- Split a token at its first `=`, as `nopt` does for `--name=value`. -/
def splitEq (s : String) : String × Option String :=
  match breakAtChar (Char.ofNat 61) s.data with
  | none => (s, none)
  | some (a, b) => (String.mk a, some (String.mk b))

/-- Recognize a flag token: `--name` or `--name=value` (long form), or a
short token `-x` expanded through the short-option table (an undeclared
short option is processed under its own name, as `nopt` does).  Returns
`none` for a positional token (a bare dash, or no leading dash).  The bare
`--` terminator is handled by the caller. -/
def flagTok (short : ShortSchema) (tok : String) : Option (String × Option String) :=
  match tok.data with
  | '-' :: '-' :: rest => some (splitEq (String.mk rest))
  | '-' :: c :: cs =>
    let body := String.mk (c :: cs)
    match lookupA short body with
    | some long => some (long, none)
    | none => some (splitEq body)
  | _ => none

/-- Accumulate one more occurrence of a `[String, Array]`-typed flag. -/
def pushArr (opts : List (String × OptVal)) (name : String) (v : String) :
    List (String × OptVal) :=
  match lookupA opts name with
  | some (OptVal.vArr xs) => setA opts name (OptVal.vArr (xs ++ [v]))
  | _ => setA opts name (OptVal.vArr [v])

/-- Record a value for a flag of declared type `t`: array-typed flags
accumulate occurrences in order, all others overwrite. -/
def storeVal (t : OptType) (opts : List (String × OptVal)) (name : String)
    (v : String) : List (String × OptVal) :=
  match t with
  | OptType.strArray => pushArr opts name v
  | _ => setA opts name (OptVal.vStr v)

/-- Result of an argv parse: the option set and the positional remainder. -/
structure ParseOut where
  opts : List (String × OptVal)
  remain : List String
  deriving DecidableEq, Repr

/-- Modelled from the spec: the `nopt` argument parser is an external npm
dependency (not part of this repository), so its behaviour is modelled from
spec section 4.1 and the behaviours the repository relies on: a recognized
flag stores its value in the option set; a flag declared boolean does not
consume the following token; a flag declared with multiple occurrences
accumulates into an ordered sequence; a value-typed flag consumes the next
token (or the empty string at end of argv); a token in long-flag syntax
absent from the schema is recorded in the option set (as boolean true, or
its `=`-value) so the caller can detect it after parsing; every other token
goes, in order, to the positional remainder; `--` ends flag parsing.
`pending` carries a value-typed flag awaiting its value token. -/
def noptGo (long : Schema) (short : ShortSchema) :
    List String → Option (String × OptType) → List (String × OptVal) →
    List String → ParseOut
  | [], none, opts, remain => ParseOut.mk opts remain
  | [], some nt, opts, remain => ParseOut.mk (storeVal nt.2 opts nt.1 "") remain
  | tok :: rest, some nt, opts, remain =>
      noptGo long short rest none (storeVal nt.2 opts nt.1 tok) remain
  | tok :: rest, none, opts, remain =>
    if tok = "--" then ParseOut.mk opts (remain ++ rest)
    else
      match flagTok short tok with
      | none => noptGo long short rest none opts (remain ++ [tok])
      | some (name, some v) =>
        match lookupA long name with
        | some t => noptGo long short rest none (storeVal t opts name v) remain
        | none =>
            noptGo long short rest none (setA opts name (OptVal.vStr v)) remain
      | some (name, none) =>
        match lookupA long name with
        | none =>
            noptGo long short rest none (setA opts name (OptVal.vBool true)) remain
        | some OptType.bool =>
            noptGo long short rest none (setA opts name (OptVal.vBool true)) remain
        | some OptType.str =>
            noptGo long short rest (some (name, OptType.str)) opts remain
        | some OptType.num =>
            noptGo long short rest (some (name, OptType.num)) opts remain
        | some OptType.strArray =>
            noptGo long short rest (some (name, OptType.strArray)) opts remain

/-- Parse a full argument vector against a long and a short schema,
starting from an empty option set (embeds `nopt(longOpts, shortOpts, argv,
2)`; the two process-path entries removed by the slice argument are not part
of our argv values). -/
def noptParse (long : Schema) (short : ShortSchema) (argv : List String) :
    ParseOut :=
  noptGo long short argv none [] []

/-- Append a name to a list unless already present (first occurrence kept,
matching how repeated writes to the same JS object key keep the key's first
enumeration position). -/
def insertOnce (acc : List String) (name : String) : List String :=
  if name ∈ acc then acc else acc ++ [name]

/-- The keys of a parsed option set that are absent from the long-option
schema, in key order: embeds the dispatch's `extraOpts` computation (copy
`opts`, delete `argv`, delete every key of `longOpts`, take `Object.keys`;
part_002 lines 521-524).  Our `ParseOut.opts` never contains an `argv`
key. -/
def extraKeys (long : Schema) : List (String × OptVal) → List String
  | [] => []
  | kv :: rest =>
    if (lookupA long kv.1).isNone then kv.1 :: extraKeys long rest
    else extraKeys long rest

/-- The names of the flag tokens of an argument vector that are absent from
the (merged) schema, in first-occurrence order, each named once — the
specification's "every offending flag" for the batched UnknownOption error.
The traversal consumes tokens exactly as the parser does (`skip` marks a
value-typed known flag consuming the next token). -/
def unknownFlagsGo (long : Schema) (short : ShortSchema) :
    List String → Bool → List String → List String
  | [], _, acc => acc
  | _ :: rest, true, acc => unknownFlagsGo long short rest false acc
  | tok :: rest, false, acc =>
    if tok = "--" then acc
    else
      match flagTok short tok with
      | none => unknownFlagsGo long short rest false acc
      | some (name, some _) =>
        match lookupA long name with
        | some _ => unknownFlagsGo long short rest false acc
        | none => unknownFlagsGo long short rest false (insertOnce acc name)
      | some (name, none) =>
        match lookupA long name with
        | none => unknownFlagsGo long short rest false (insertOnce acc name)
        | some OptType.bool => unknownFlagsGo long short rest false acc
        | some OptType.str => unknownFlagsGo long short rest true acc
        | some OptType.num => unknownFlagsGo long short rest true acc
        | some OptType.strArray => unknownFlagsGo long short rest true acc

/-- The unknown flag names of a full argument vector. -/
def unknownFlags (long : Schema) (short : ShortSchema) (argv : List String) :
    List String :=
  unknownFlagsGo long short argv false []

theorem insertOnce_cons (a k : String) (acc : List String) (hne : k ≠ a) :
    insertOnce (a :: acc) k = a :: insertOnce acc k := by
  by_cases hmem : k ∈ acc <;> simp [insertOnce, hmem, hne]

theorem extraKeys_setA_known (long : Schema) (k : String) (v : OptVal)
    (h : (lookupA long k).isNone = false) :
    ∀ opts, extraKeys long (setA opts k v) = extraKeys long opts := by
  intro opts
  induction opts with
  | nil => simp [setA, extraKeys, h]
  | cons kv rest ih =>
      by_cases hk : kv.1 = k
      · simp [setA, hk, extraKeys, h]
      · simp [setA, hk, extraKeys, ih]

theorem extraKeys_setA_unknown (long : Schema) (k : String) (v : OptVal)
    (h : (lookupA long k).isNone = true) :
    ∀ opts, extraKeys long (setA opts k v)
      = insertOnce (extraKeys long opts) k := by
  intro opts
  induction opts with
  | nil => simp [setA, extraKeys, insertOnce, h]
  | cons kv rest ih =>
      by_cases hk : kv.1 = k
      · subst hk
        simp [setA, extraKeys, h, insertOnce]
      · cases hnk : (lookupA long kv.1).isNone with
        | true =>
            rw [show setA (kv :: rest) k v = kv :: setA rest k v by
              simp [setA, hk]]
            simp only [extraKeys, hnk, if_true]
            rw [ih, insertOnce_cons kv.1 k _ (fun he => hk he.symm)]
        | false =>
            rw [show setA (kv :: rest) k v = kv :: setA rest k v by
              simp [setA, hk]]
            simp only [extraKeys, hnk]
            simp [ih]

theorem extraKeys_storeVal (long : Schema) (t : OptType) (k : String)
    (v : String) (h : (lookupA long k).isNone = false) :
    ∀ opts, extraKeys long (storeVal t opts k v) = extraKeys long opts := by
  intro opts
  cases t with
  | strArray =>
      simp only [storeVal, pushArr]
      cases hl : lookupA opts k with
      | none => simp [extraKeys_setA_known long k _ h]
      | some w => cases w <;> simp [extraKeys_setA_known long k _ h]
  | bool => simp [storeVal, extraKeys_setA_known long k _ h]
  | str => simp [storeVal, extraKeys_setA_known long k _ h]
  | num => simp [storeVal, extraKeys_setA_known long k _ h]

theorem extraKeys_noptGo (long : Schema) (short : ShortSchema) :
    ∀ (toks : List String) (pending : Option (String × OptType))
      (opts : List (String × OptVal)) (remain : List String),
      (∀ nt, pending = some nt → (lookupA long nt.1).isNone = false) →
      extraKeys long (noptGo long short toks pending opts remain).opts
        = unknownFlagsGo long short toks pending.isSome
            (extraKeys long opts) := by
  intro toks
  induction toks with
  | nil =>
      intro pending opts remain hp
      cases pending with
      | none => simp [noptGo, unknownFlagsGo]
      | some nt =>
          simp [noptGo, unknownFlagsGo]
          exact extraKeys_storeVal long nt.2 nt.1 "" (hp nt rfl) opts
  | cons tok rest ih =>
      intro pending opts remain hp
      cases pending with
      | some nt =>
          simp only [noptGo, Option.isSome_some, unknownFlagsGo]
          rw [ih none _ remain (by intro nt h; cases h)]
          rw [extraKeys_storeVal long nt.2 nt.1 tok (hp nt rfl) opts]
          rfl
      | none =>
          by_cases htok : tok = "--"
          · simp [noptGo, unknownFlagsGo, htok]
          · simp only [noptGo, Option.isSome_none, unknownFlagsGo, htok,
              if_false]
            cases hft : flagTok short tok with
            | none =>
                dsimp only
                rw [ih none opts _ (by intro nt h; cases h)]
                rfl
            | some p =>
                rcases p with ⟨name, eqVal⟩
                cases eqVal with
                | some v =>
                    dsimp only
                    cases hl : lookupA long name with
                    | some t =>
                        dsimp only
                        rw [ih none _ remain (by intro nt h; cases h)]
                        rw [extraKeys_storeVal long t name v
                          (by simp [hl]) opts]
                        rfl
                    | none =>
                        dsimp only
                        rw [ih none _ remain (by intro nt h; cases h)]
                        rw [extraKeys_setA_unknown long name _
                          (by simp [hl]) opts]
                        rfl
                | none =>
                    dsimp only
                    cases hl : lookupA long name with
                    | none =>
                        dsimp only
                        rw [ih none _ remain (by intro nt h; cases h)]
                        rw [extraKeys_setA_unknown long name _
                          (by simp [hl]) opts]
                        rfl
                    | some t =>
                        cases t with
                        | bool =>
                            dsimp only
                            rw [ih none _ remain (by intro nt h; cases h)]
                            rw [extraKeys_setA_known long name _
                              (by simp [hl]) opts]
                            rfl
                        | str =>
                            dsimp only
                            rw [ih (some (name, OptType.str)) opts remain
                              (by intro nt h; cases h; simp [hl])]
                            rfl
                        | num =>
                            dsimp only
                            rw [ih (some (name, OptType.num)) opts remain
                              (by intro nt h; cases h; simp [hl])]
                            rfl
                        | strArray =>
                            dsimp only
                            rw [ih (some (name, OptType.strArray)) opts remain
                              (by intro nt h; cases h; simp [hl])]
                            rfl

/-- The dispatch's batched unknown-option computation identifies exactly the
flag names of the argument vector that are absent from the merged schema,
in first-occurrence order. -/
theorem extraKeys_noptParse (long : Schema) (short : ShortSchema)
    (argv : List String) :
    extraKeys long (noptParse long short argv).opts
      = unknownFlags long short argv := by
  have := extraKeys_noptGo long short argv none [] []
    (by intro nt h; cases h)
  simpa [noptParse, unknownFlags, extraKeys] using this

/-- One prototype command binding `CLI.prototype.do_FUNCNAME`, with the
attributes the dispatcher and help command read off the handler function:
its declared aliases, per-command option schemas, and whether a
`.description` string is assigned. -/
structure Cmd where
  funcname : String
  aliases : List String
  longOpts : Schema
  shortOpts : ShortSchema
  hasDescription : Bool
  deriving DecidableEq, Repr

/-- The human-facing command name of a `do_X` binding:
`funcname.slice(3).replace(/_/g, '-')` (part_002 line 199). -/
def cmdNameOf (funcname : String) : String :=
  String.mk ((funcname.data.drop 3).map (fun c => if c = '_' then '-' else c))

/-- Lexicographic comparison of character lists by code point. -/
def charsLt : List Char → List Char → Bool
  | [], [] => false
  | [], _ :: _ => true
  | _ :: _, [] => false
  | c :: cs, d :: ds =>
    if c.toNat < d.toNat then true
    else if d.toNat < c.toNat then false
    else charsLt cs ds

/-- The JavaScript string `<` comparison: lexicographic by code unit (all
strings in this development are ASCII, where code units and code points
agree). -/
def jsStrLt (a b : String) : Bool :=
  charsLt a.data b.data

/-- Insert into a list sorted by funcname (helper for `sortCmds`). -/
def insertCmd (c : Cmd) : List Cmd → List Cmd
  | [] => [c]
  | d :: rest =>
    if jsStrLt d.funcname c.funcname then d :: insertCmd c rest
    else c :: d :: rest

/-- Sort the prototype bindings by function name, embedding the
`Object.keys(...).sort()` over the `do_*` keys (part_002 lines 195-197). -/
def sortCmds : List Cmd → List Cmd
  | [] => []
  | c :: rest => insertCmd c (sortCmds rest)

/-- The command registry built at CLI construction: `this.subcmds` maps each
command name to its handler, `this.aliases` maps every usable invocation
name (canonical and declared aliases) to the canonical name. -/
structure Registry where
  subcmds : List (String × Cmd)
  aliases : List (String × String)
  deriving DecidableEq, Repr

/-- Registry construction from the prototype's `do_*` bindings (part_002
lines 193-206): for each binding in sorted funcname order, register the
derived name in `subcmds`, map the name to itself in `aliases`, and map each
declared alias to the name. -/
def buildRegistry (proto : List Cmd) : Registry :=
  (sortCmds proto).foldl
    (fun reg cmd =>
      let name := cmdNameOf cmd.funcname
      Registry.mk
        (setA reg.subcmds name cmd)
        (cmd.aliases.foldl (fun a x => setA a x name)
          (setA reg.aliases name name)))
    (Registry.mk [] [])

/-- The authentication modes of a CLI instance (`options.auth`): the source
values are the strings none, basic and signature. -/
inductive Auth where
  | noAuth
  | basic
  | signature
  deriving DecidableEq, Repr

/-- CLI construction options relevant to dispatch: the auth mode and the
two optional features (`export`, `channels`). -/
structure CLIOpts where
  auth : Auth
  exportFeature : Bool
  channelsFeature : Bool
  deriving DecidableEq, Repr

/-- The global long-option schema built by `handleArgv` (part_002 lines
335-357), in insertion order. -/
def globalLongOpts (o : CLIOpts) : Schema :=
  [("help", OptType.bool), ("version", OptType.bool),
   ("debug", OptType.bool), ("insecure", OptType.bool)]
  ++ (match o.auth with
      | Auth.noAuth => []
      | Auth.basic => [("user", OptType.str)]
      | Auth.signature => [("user", OptType.str), ("identity", OptType.strArray)])
  ++ (if o.channelsFeature then [("channel", OptType.str)] else [])

/-- The global short-option schema built by `handleArgv`. -/
def globalShortOpts (o : CLIOpts) : ShortSchema :=
  [("h", "help"), ("d", "debug")]
  ++ (match o.auth with
      | Auth.noAuth => []
      | Auth.basic => [("u", "user")]
      | Auth.signature => [("u", "user"), ("i", "identity")])
  ++ (if o.channelsFeature then [("C", "channel")] else [])

/-- The long-option schema of the `list` command (part_002 lines 804-814). -/
def listLongOpts : Schema :=
  [("json", OptType.bool), ("skipHeader", OptType.bool),
   ("output", OptType.str), ("sort", OptType.str), ("all", OptType.bool),
   ("latest", OptType.bool), ("marker", OptType.str),
   ("limit", OptType.num), ("inclAdminFields", OptType.bool)]

/-- The short-option schema of the `list` command. -/
def listShortOpts : ShortSchema :=
  [("j", "json"), ("H", "skipHeader"), ("o", "output"), ("s", "sort"),
   ("a", "all"), ("m", "marker"), ("l", "limit"), ("A", "inclAdminFields")]

/-- The option schemas shared by `get-file` and `get-icon`. -/
def getFileLongOpts : Schema :=
  [("output", OptType.str), ("outputUuidExt", OptType.bool),
   ("quiet", OptType.bool)]

/-- Short options of `get-file` and `get-icon`. -/
def getFileShortOpts : ShortSchema :=
  [("o", "output"), ("O", "outputUuidExt"), ("q", "quiet")]

/-- The option schemas of `create` (part_002 lines 1278-1293). -/
def createLongOpts : Schema :=
  [("manifest", OptType.str), ("file", OptType.str),
   ("compression", OptType.str), ("sha1", OptType.str),
   ("quiet", OptType.bool), ("storage", OptType.str)]

/-- Short options of `create`. -/
def createShortOpts : ShortSchema :=
  [("m", "manifest"), ("f", "file"), ("c", "compression"), ("s", "sha1"),
   ("q", "quiet")]

/-- The option schemas of `import` (part_002 lines 1688-1706). -/
def importLongOpts : Schema :=
  [("manifest", OptType.str), ("file", OptType.str),
   ("compression", OptType.str), ("sha1", OptType.str),
   ("source-url", OptType.str), ("skip-owner-check", OptType.bool),
   ("quiet", OptType.bool), ("storage", OptType.str)]

/-- Short options of `import`. -/
def importShortOpts : ShortSchema :=
  [("m", "manifest"), ("f", "file"), ("c", "compression"), ("s", "sha1"),
   ("S", "source-url"), ("q", "quiet")]

/-- The option schemas of `add-file` (part_002 lines 1827-1839). -/
def addFileLongOpts : Schema :=
  [("file", OptType.str), ("compression", OptType.str),
   ("sha1", OptType.str), ("quiet", OptType.bool), ("storage", OptType.str)]

/-- Short options of `add-file`. -/
def addFileShortOpts : ShortSchema :=
  [("f", "file"), ("c", "compression"), ("s", "sha1"), ("q", "quiet")]

/-- The option schemas of `add-icon` (part_002 lines 1940-1954). -/
def addIconLongOpts : Schema :=
  [("file", OptType.str), ("contentType", OptType.str),
   ("sha1", OptType.str), ("quiet", OptType.bool), ("storage", OptType.str)]

/-- Short options of `add-icon`. -/
def addIconShortOpts : ShortSchema :=
  [("f", "file"), ("c", "contentType"), ("s", "sha1"), ("q", "quiet")]

/-- The option schemas of `channels` (part_002 lines 2235-2244). -/
def channelsLongOpts : Schema :=
  [("json", OptType.bool), ("skipHeader", OptType.bool),
   ("output", OptType.str)]

/-- Short options of `channels`. -/
def channelsShortOpts : ShortSchema :=
  [("j", "json"), ("H", "skipHeader"), ("o", "output")]

/-- The `do_*` bindings of `CLI.prototype` in part_002, in source order,
with their declared aliases and option schemas.  Every command assigns a
`.description` string. -/
def protoCmds : List Cmd :=
  [Cmd.mk "do_help" ["?"] [] [] true,
   Cmd.mk "do_ping" [] [] [] true,
   Cmd.mk "do_state" [] [] [] true,
   Cmd.mk "do_reload_auth_keys" [] [] [] true,
   Cmd.mk "do_list" [] listLongOpts listShortOpts true,
   Cmd.mk "do_get" ["show", "info"] [("inclAdminFields", OptType.bool)]
     [("A", "inclAdminFields")] true,
   Cmd.mk "do_get_file" [] getFileLongOpts getFileShortOpts true,
   Cmd.mk "do_get_icon" [] getFileLongOpts getFileShortOpts true,
   Cmd.mk "do_delete" [] [] [] true,
   Cmd.mk "do_create" [] createLongOpts createShortOpts true,
   Cmd.mk "do_update" [] [("file", OptType.str)] [("f", "file")] true,
   Cmd.mk "do_import" [] importLongOpts importShortOpts true,
   Cmd.mk "do_add_file" [] addFileLongOpts addFileShortOpts true,
   Cmd.mk "do_add_icon" [] addIconLongOpts addIconShortOpts true,
   Cmd.mk "do_delete_icon" [] [] [] true,
   Cmd.mk "do_export" [] [("output-template", OptType.str)]
     [("o", "output-template")] true,
   Cmd.mk "do_activate" [] [] [] true,
   Cmd.mk "do_disable" [] [] [] true,
   Cmd.mk "do_enable" [] [] [] true,
   Cmd.mk "do_add_acl" [] [] [] true,
   Cmd.mk "do_remove_acl" [] [] [] true,
   Cmd.mk "do_channels" [] channelsLongOpts channelsShortOpts true,
   Cmd.mk "do_channel_add" [] [] [] true,
   Cmd.mk "do_change_stor" [] [] [] true]

/-- The `delete` command's long-option schema after the constructor's
channels-feature rewrite (`do_delete._channels_longOpts`, part_002 lines
1142-1144). -/
def deleteChannelsLongOpts : Schema :=
  [("force-all-channels", OptType.bool)]

/-- The feature handling of the `CLI` constructor (part_002 lines 176-191)
followed by registry construction.  The constructor mutates the SHARED
`CLI.prototype`: without the export feature it deletes `do_export`; without
the channels feature it deletes `do_channels` and `do_channel_add`; with the
channels feature it overwrites `do_delete`'s description and long-option
schema.  The mutated prototype is returned together with the registry built
from it, so a construction sequence threads the prototype state. -/
def constructCLI (proto : List Cmd) (exportFeature channelsFeature : Bool) :
    List Cmd × Registry :=
  let p1 :=
    if exportFeature then proto
    else proto.filter (fun c => c.funcname != "do_export")
  let p2 :=
    if channelsFeature then
      p1.map (fun c =>
        if c.funcname = "do_delete" then
          Cmd.mk c.funcname c.aliases deleteChannelsLongOpts c.shortOpts
            c.hasDescription
        else c)
    else
      p1.filter (fun c =>
        (c.funcname != "do_channels") && (c.funcname != "do_channel_add"))
  (p2, buildRegistry p2)

/-- The dispatch-relevant state of a constructed CLI instance:
`this.aliases`/`this.subcmds` from the constructor and
`this.longOpts`/`this.shortOpts` from `handleArgv`. -/
structure CLIState where
  reg : Registry
  longOpts : Schema
  shortOpts : ShortSchema
  deriving DecidableEq, Repr

/-- The state of the first CLI instance constructed in a fresh process
(prototype not yet mutated by an earlier construction). -/
def mkCLIState (o : CLIOpts) : CLIState :=
  CLIState.mk (constructCLI protoCmds o.exportFeature o.channelsFeature).2
    (globalLongOpts o) (globalShortOpts o)

/-- The possible outcomes of `CLI.prototype.dispatch` (part_002 lines
494-533): an UnknownCommand error, a batched UnknownOption error, the
`assert.equal(subcmd, args.shift())` assertion throwing, a crash on a
registry whose alias table points at a missing handler, or the handler
being invoked with the parsed options and remaining positional
arguments. -/
inductive DispatchResult where
  | unknownCommand (subcmd : String)
  | unknownOption (names : List String)
  | registryCrash
  | assertFailed
  | invoked (name : String) (cmd : Cmd) (opts : List (String × OptVal))
      (args : List String)
  deriving DecidableEq, Repr

/-- The `code` attribute of the error a dispatch failure surfaces, per
lib/errors.js (part_000): UnknownCommandError has code UnknownCommand,
UnknownOptionError has code UnknownOption. -/
def dispatchErrCode : DispatchResult → Option String
  | DispatchResult.unknownCommand _ => some "UnknownCommand"
  | DispatchResult.unknownOption _ => some "UnknownOption"
  | _ => none

/-- The message of the batched UnknownOptionError:
`sprintf('unknown option: "%s"', extraOpts.join(', '))`. -/
def unknownOptionMessage (names : List String) : String :=
  "unknown option: \"" ++ String.intercalate ", " names ++ "\""

/-- `CLI.prototype.dispatch` (part_002 lines 494-533): resolve the
subcommand through the alias table, re-parse the full argv against the
merged global+command schemas, fail on any option key outside the merged
long schema (naming all of them in one error), check the
first-positional-equals-subcommand invariant by assertion, and otherwise
invoke the handler with the remaining positional arguments. -/
def dispatch (st : CLIState) (subcmd : String) (argv : List String) :
    DispatchResult :=
  match lookupA st.reg.aliases subcmd with
  | none => DispatchResult.unknownCommand subcmd
  | some name =>
    match lookupA st.reg.subcmds name with
    | none => DispatchResult.registryCrash
    | some cmd =>
      let long := mergeA st.longOpts cmd.longOpts
      let short := mergeA st.shortOpts cmd.shortOpts
      let out := noptParse long short argv
      let extra := extraKeys long out.opts
      if extra = [] then
        match out.remain with
        | [] => DispatchResult.assertFailed
        | a :: args =>
          if a = subcmd then DispatchResult.invoked name cmd out.opts args
          else DispatchResult.assertFailed
      else DispatchResult.unknownOption extra

/-- The registry of a freshly constructed CLI with the given feature
flags. -/
def registryOf (exportFeature channelsFeature : Bool) : Registry :=
  (constructCLI protoCmds exportFeature channelsFeature).2

/-- The `help_*` bindings of `CLI.prototype` (part_002 line 565): only
`help_help` exists, so `this.helpcmds` has the single key help. -/
def helpCmdNames : List String :=
  ["help"]

/-- The own properties of `Object.prototype`, which every plain JS object
literal (such as `this.aliases` and `this.subcmds`) inherits.  Every one of
them reads as a truthy value (a function, or for `__proto__` the
`Object.prototype` object itself), so `this.aliases[k]` is truthy for these
keys even though they are not registered invocation names. -/
def objectProtoProps : List String :=
  ["constructor", "hasOwnProperty", "isPrototypeOf", "propertyIsEnumerable",
   "toLocaleString", "toString", "valueOf",
   "__defineGetter__", "__defineSetter__", "__lookupGetter__",
   "__lookupSetter__", "__proto__"]

/-- What a JS property read `o[k]` on a plain object literal yields: an own
property's value, a truthy value inherited from `Object.prototype`, or the
falsy `undefined`. -/
inductive JsProp (α : Type) where
  | own (a : α)
  | inherited
  | undef
  deriving DecidableEq, Repr

/-- The JS property read `o[k]` on a plain object literal, with the
prototype chain: own key, else `Object.prototype` member, else
`undefined`. -/
def jsGet {α : Type} (l : List (String × α)) (k : String) : JsProp α :=
  match lookupA l k with
  | some v => JsProp.own v
  | none =>
    if objectProtoProps.contains k then JsProp.inherited else JsProp.undef

theorem lookupA_eq_none_of_jsGet_undef {α : Type} (l : List (String × α))
    (k : String) (h : jsGet l k = JsProp.undef) : lookupA l k = none := by
  cases hl : lookupA l k with
  | none => rfl
  | some v =>
      simp [jsGet, hl] at h

/-- The outcome of the name-resolution and handler-fetch prefix of
`CLI.prototype.dispatch` (part_002 lines 496-500) under faithful JS
property-read semantics. -/
inductive ResolveResult where
  | errUnknownCommand (s : String)
  | typeErrorCrash (s : String)
  | found (name : String) (cmd : Cmd)
  | registryCrash
  deriving DecidableEq, Repr

/-- The prefix of `CLI.prototype.dispatch` (part_002 lines 496-500) with
the prototype chain modelled: `var name = this.aliases[subcmd]` is truthy
not only for registered names but also for `Object.prototype` member names
(`constructor`, `toString`, ...), so those skip the `if (!name)`
UnknownCommandError branch; for them `this.subcmds[name]` coerces the
inherited function/object to a string key that exists nowhere, `func` is
`undefined`, and the subsequent `func.longOpts` read throws a TypeError. -/
def dispatchResolve (reg : Registry) (subcmd : String) : ResolveResult :=
  match jsGet reg.aliases subcmd with
  | JsProp.undef => ResolveResult.errUnknownCommand subcmd
  | JsProp.inherited => ResolveResult.typeErrorCrash subcmd
  | JsProp.own name =>
    match lookupA reg.subcmds name with
    | some cmd => ResolveResult.found name cmd
    | none => ResolveResult.registryCrash

/-- The possible outcomes of `CLI.prototype.do_help` (part_002 lines
535-560), including the TypeError thrown for an `Object.prototype` member
name. -/
inductive HelpResult where
  | printedFullHelp
  | helpHook (name : String)
  | printedDescription (name : String)
  | errUnknownCommand (s : String)
  | errNoHelp (s : String)
  | typeErrorCrash (s : String)
  | registryCrash
  deriving DecidableEq, Repr

/-- `CLI.prototype.do_help`: with no argument print the full usage; resolve
the named command through the alias table (a JS property read: an
`Object.prototype` member name is truthy, skips the UnknownCommandError
branch, and then `this.helpcmds[name]` and `this.subcmds[name]` coerce the
inherited value to a string key that exists nowhere, so `func` is
`undefined` and `func.description` throws a TypeError); fail with
UnknownCommandError when the read is `undefined`; prefer a registered
`help_NAME` hook; else print the command's description; else fail with a
generic no-help error. -/
def doHelp (reg : Registry) (args : List String) : HelpResult :=
  match args with
  | [] => HelpResult.printedFullHelp
  | a :: _ =>
    match jsGet reg.aliases a with
    | JsProp.undef => HelpResult.errUnknownCommand a
    | JsProp.inherited => HelpResult.typeErrorCrash a
    | JsProp.own name =>
      if helpCmdNames.contains name then HelpResult.helpHook name
      else
        match lookupA reg.subcmds name with
        | none => HelpResult.registryCrash
        | some cmd =>
          if cmd.hasDescription then HelpResult.printedDescription name
          else HelpResult.errNoHelp a

/-- C1: for every argument vector containing a flag absent from the merged
global+command option schema (given that the subcommand token itself
resolves), dispatch fails with a single UnknownOption error naming every
offending flag — all of them, in one batch — and the subcommand handler is
never invoked. -/
theorem dispatch_unknown_flags_fail_batch (o : CLIOpts) (subcmd : String)
    (argv : List String) (name : String) (cmd : Cmd)
    (h1 : lookupA (mkCLIState o).reg.aliases subcmd = some name)
    (h2 : lookupA (mkCLIState o).reg.subcmds name = some cmd)
    (h3 : unknownFlags (mergeA (globalLongOpts o) cmd.longOpts)
        (mergeA (globalShortOpts o) cmd.shortOpts) argv ≠ []) :
    dispatch (mkCLIState o) subcmd argv
      = DispatchResult.unknownOption
          (unknownFlags (mergeA (globalLongOpts o) cmd.longOpts)
            (mergeA (globalShortOpts o) cmd.shortOpts) argv)
    ∧ ∀ n c op ar,
        dispatch (mkCLIState o) subcmd argv
          ≠ DispatchResult.invoked n c op ar := by
  have hd : dispatch (mkCLIState o) subcmd argv
      = DispatchResult.unknownOption
          (unknownFlags (mergeA (globalLongOpts o) cmd.longOpts)
            (mergeA (globalShortOpts o) cmd.shortOpts) argv) := by
    unfold dispatch
    rw [h1]
    dsimp only
    rw [h2]
    dsimp only
    rw [show (mkCLIState o).longOpts = globalLongOpts o from rfl,
        show (mkCLIState o).shortOpts = globalShortOpts o from rfl]
    rw [extraKeys_noptParse]
    simp [h3]
  refine ⟨hd, ?_⟩
  intro n c op ar
  rw [hd]
  intro hcon
  exact DispatchResult.noConfusion hcon

/-- C1 witness: a concrete dispatch of `get --bogus --wat x` fails naming
both unknown flags. -/
theorem dispatch_unknown_flags_fail_batch_witness :
    dispatch (mkCLIState (CLIOpts.mk Auth.noAuth true true)) "get"
        ["get", "--bogus", "--wat", "x"]
      = DispatchResult.unknownOption ["bogus", "wat"] := by
  have h := dispatch_unknown_flags_fail_batch (CLIOpts.mk Auth.noAuth true true)
    "get" ["get", "--bogus", "--wat", "x"] "get"
    (Cmd.mk "do_get" ["show", "info"] [("inclAdminFields", OptType.bool)]
      [("A", "inclAdminFields")] true)
    (by decide) (by decide) (by decide)
  rw [h.1]
  decide

/-- C2: in every feature configuration, every key of the alias table
resolves to exactly one existing command, every canonical command name maps
to itself, and resolving any invocation name yields the same handler as
resolving the canonical name it maps to. -/
theorem alias_table_resolves_uniquely :
    ∀ ef ch : Bool,
      (∀ kv ∈ (registryOf ef ch).aliases,
          (lookupA (registryOf ef ch).subcmds kv.2).isSome = true
          ∧ lookupA (registryOf ef ch).aliases kv.2 = some kv.2
          ∧ (lookupA (registryOf ef ch).aliases kv.1).bind
                (lookupA (registryOf ef ch).subcmds)
              = lookupA (registryOf ef ch).subcmds kv.2)
      ∧ (∀ kv ∈ (registryOf ef ch).subcmds,
          lookupA (registryOf ef ch).aliases kv.1 = some kv.1) := by
  decide

/-- C2 witness: the alias show resolves to the existing command get, whose
canonical name maps to itself, and both resolve to the same handler. -/
theorem alias_table_resolves_uniquely_witness :
    (lookupA (registryOf true true).subcmds "get").isSome = true
    ∧ lookupA (registryOf true true).aliases "get" = some "get"
    ∧ (lookupA (registryOf true true).aliases "show").bind
        (lookupA (registryOf true true).subcmds)
      = lookupA (registryOf true true).subcmds "get" :=
  (alias_table_resolves_uniquely true true).1 ("show", "get") (by decide)

/-- C7 counterexample: constructor is not a registered invocation name
(`lookupA` on the alias table is `none`), yet it is an inherited
`Object.prototype` member, so the source's truthy read skips the
UnknownCommandError branch: dispatch crashes with a TypeError reading
`func.longOpts` of `undefined`, and `help constructor` crashes with a
TypeError reading `func.description` of `undefined` — errors of a
different kind than UnknownCommand, refuting the claim. -/
theorem inherited_name_crashes_not_unknownCommand :
    lookupA (registryOf true true).aliases "constructor" = none
    ∧ jsGet (registryOf true true).aliases "constructor"
        = JsProp.inherited
    ∧ dispatchResolve (registryOf true true) "constructor"
        = ResolveResult.typeErrorCrash "constructor"
    ∧ doHelp (registryOf true true) ["constructor"]
        = HelpResult.typeErrorCrash "constructor"
    ∧ ResolveResult.typeErrorCrash "constructor"
        ≠ ResolveResult.errUnknownCommand "constructor"
    ∧ HelpResult.typeErrorCrash "constructor"
        ≠ HelpResult.errUnknownCommand "constructor" := by
  decide

/-- C7 (amended): an invocation name whose JS property read on the alias
table is `undefined` — i.e. neither a registered name nor an
`Object.prototype` member — makes both dispatch and `help NAME` fail with
an UnknownCommand error (error code UnknownCommand) and with nothing else;
an unknown name that IS an `Object.prototype` member (`constructor`,
`toString`, ...) instead makes both paths crash with a TypeError. -/
theorem noninherited_unknown_name_fails_unknownCommand (o : CLIOpts)
    (s : String) (argv : List String)
    (h : jsGet (mkCLIState o).reg.aliases s = JsProp.undef) :
    dispatch (mkCLIState o) s argv = DispatchResult.unknownCommand s
    ∧ dispatchErrCode (dispatch (mkCLIState o) s argv)
        = some "UnknownCommand"
    ∧ dispatchResolve (mkCLIState o).reg s
        = ResolveResult.errUnknownCommand s
    ∧ doHelp (mkCLIState o).reg [s] = HelpResult.errUnknownCommand s
    ∧ ∀ t : String,
        jsGet (mkCLIState o).reg.aliases t = JsProp.inherited →
        dispatchResolve (mkCLIState o).reg t
            = ResolveResult.typeErrorCrash t
        ∧ doHelp (mkCLIState o).reg [t] = HelpResult.typeErrorCrash t := by
  have hlook : lookupA (mkCLIState o).reg.aliases s = none :=
    lookupA_eq_none_of_jsGet_undef _ s h
  have hd : dispatch (mkCLIState o) s argv
      = DispatchResult.unknownCommand s := by
    unfold dispatch
    rw [hlook]
  have hr : dispatchResolve (mkCLIState o).reg s
      = ResolveResult.errUnknownCommand s := by
    unfold dispatchResolve
    rw [h]
  have hh : doHelp (mkCLIState o).reg [s]
      = HelpResult.errUnknownCommand s := by
    unfold doHelp
    dsimp only
    rw [h]
  refine ⟨hd, by rw [hd]; rfl, hr, hh, ?_⟩
  intro t ht
  constructor
  · unfold dispatchResolve
    rw [ht]
  · unfold doHelp
    dsimp only
    rw [ht]

/-- C7 witness: the unknown, non-inherited name bogus fails with
UnknownCommand in both paths, and the inherited name toString crashes with
a TypeError in both. -/
theorem noninherited_unknown_name_fails_unknownCommand_witness :
    dispatch (mkCLIState (CLIOpts.mk Auth.noAuth true true)) "bogus"
        ["bogus"]
      = DispatchResult.unknownCommand "bogus"
    ∧ doHelp (mkCLIState (CLIOpts.mk Auth.noAuth true true)).reg ["bogus"]
      = HelpResult.errUnknownCommand "bogus"
    ∧ doHelp (mkCLIState (CLIOpts.mk Auth.noAuth true true)).reg
        ["toString"]
      = HelpResult.typeErrorCrash "toString" := by
  have h := noninherited_unknown_name_fails_unknownCommand
    (CLIOpts.mk Auth.noAuth true true) "bogus" ["bogus"] (by decide)
  exact ⟨h.1, h.2.2.2.1, (h.2.2.2.2 "toString" (by decide)).2⟩

/-- C9 counterexample: a successful dispatch through the alias show (for
the canonical command get): the first remaining positional argument of the
merged-schema re-parse is the alias token show, which is NOT the resolved
command name get, refuting the claim that it equals the resolved command
name. -/
theorem dispatch_alias_first_positional_ne_resolved :
    dispatch (mkCLIState (CLIOpts.mk Auth.noAuth true true)) "show"
        ["show", "abc"]
      = DispatchResult.invoked "get"
          (Cmd.mk "do_get" ["show", "info"]
            [("inclAdminFields", OptType.bool)] [("A", "inclAdminFields")]
            true)
          [] ["abc"]
    ∧ (noptParse
        (mergeA (globalLongOpts (CLIOpts.mk Auth.noAuth true true))
          [("inclAdminFields", OptType.bool)])
        (mergeA (globalShortOpts (CLIOpts.mk Auth.noAuth true true))
          [("A", "inclAdminFields")])
        ["show", "abc"]).remain.head? = some "show"
    ∧ "show" ≠ "get" := by
  refine ⟨by decide, by decide, by decide⟩

/-- C9 (amended): for every dispatch that reaches the handler, the first
remaining positional argument of the merged-schema re-parse equals the
subcommand TOKEN as typed (the alias, not necessarily the resolved
canonical name) — the fact `assert.equal(subcmd, args.shift())` checks —
and it is discarded: the handler receives exactly the remaining positional
arguments after it. -/
theorem dispatch_invoked_strips_subcmd_token (o : CLIOpts) (subcmd : String)
    (argv : List String) (name : String) (cmd : Cmd) (n : String) (c : Cmd)
    (op : List (String × OptVal)) (ar : List String)
    (h1 : lookupA (mkCLIState o).reg.aliases subcmd = some name)
    (h2 : lookupA (mkCLIState o).reg.subcmds name = some cmd)
    (h3 : dispatch (mkCLIState o) subcmd argv
        = DispatchResult.invoked n c op ar) :
    n = name ∧ c = cmd
    ∧ (noptParse (mergeA (globalLongOpts o) cmd.longOpts)
        (mergeA (globalShortOpts o) cmd.shortOpts) argv).remain
      = subcmd :: ar := by
  unfold dispatch at h3
  rw [h1] at h3
  dsimp only at h3
  rw [h2] at h3
  dsimp only at h3
  rw [show (mkCLIState o).longOpts = globalLongOpts o from rfl,
      show (mkCLIState o).shortOpts = globalShortOpts o from rfl] at h3
  by_cases hex : extraKeys (mergeA (globalLongOpts o) cmd.longOpts)
      (noptParse (mergeA (globalLongOpts o) cmd.longOpts)
        (mergeA (globalShortOpts o) cmd.shortOpts) argv).opts = []
  · rw [if_pos hex] at h3
    cases hrem : (noptParse (mergeA (globalLongOpts o) cmd.longOpts)
        (mergeA (globalShortOpts o) cmd.shortOpts) argv).remain with
    | nil => rw [hrem] at h3; exact DispatchResult.noConfusion h3
    | cons a args =>
        rw [hrem] at h3
        dsimp only at h3
        by_cases ha : a = subcmd
        · rw [if_pos ha] at h3
          injection h3 with e1 e2 e3 e4
          exact ⟨e1.symm, e2.symm, by rw [ha, e4]⟩
        · rw [if_neg ha] at h3
          exact DispatchResult.noConfusion h3
  · rw [if_neg hex] at h3
    exact DispatchResult.noConfusion h3

/-- C9 witness: a concrete canonical invocation where the theorem applies:
`get abc` reaches the handler with the token stripped. -/
theorem dispatch_invoked_strips_subcmd_token_witness :
    (noptParse
      (mergeA (globalLongOpts (CLIOpts.mk Auth.noAuth true true))
        [("inclAdminFields", OptType.bool)])
      (mergeA (globalShortOpts (CLIOpts.mk Auth.noAuth true true))
        [("A", "inclAdminFields")])
      ["get", "abc"]).remain = "get" :: ["abc"] :=
  (dispatch_invoked_strips_subcmd_token (CLIOpts.mk Auth.noAuth true true)
    "get" ["get", "abc"] "get"
    (Cmd.mk "do_get" ["show", "info"] [("inclAdminFields", OptType.bool)]
      [("A", "inclAdminFields")] true)
    "get"
    (Cmd.mk "do_get" ["show", "info"] [("inclAdminFields", OptType.bool)]
      [("A", "inclAdminFields")] true)
    [] ["abc"] (by decide) (by decide) (by decide)).2.2

/-- C10: disabling a feature at construction deletes the corresponding
handlers from the SHARED prototype, so an instance constructed afterwards
lacks those commands even though its own options enable both features,
while a first-in-process instance with the same options has them: command
availability is not a function of the instance's own options alone. -/
theorem prototype_mutation_leaks_across_instances :
    lookupA (constructCLI (constructCLI protoCmds false false).1
        true true).2.subcmds "export" = none
    ∧ lookupA (constructCLI (constructCLI protoCmds false false).1
        true true).2.subcmds "channels" = none
    ∧ lookupA (constructCLI (constructCLI protoCmds false false).1
        true true).2.subcmds "channel-add" = none
    ∧ (lookupA (constructCLI protoCmds true true).2.subcmds
        "export").isSome = true
    ∧ (lookupA (constructCLI protoCmds true true).2.subcmds
        "channels").isSome = true
    ∧ (lookupA (constructCLI protoCmds true true).2.subcmds
        "channel-add").isSome = true := by
  decide

/-- The per-transfer context of a `get-file` download (part_002 lines
878-966): whether an md5 accumulator was installed (it is exactly when the
payload is written to a file rather than piped to stdout), the
Content-MD5 response header, and the digest the accumulator yields at
finish time.  The progress bar and the stderr prints are operator feedback
with no bearing on the outcome and are not modelled. -/
structure GetFileCtx where
  hasHash : Bool
  md5Expected : Option String
  md5Actual : String
  deriving DecidableEq, Repr

/-- What one invocation of the transfer's completion callback reports. -/
inductive FinishErr where
  | streamErr (e : String)
  | contentMd5Mismatch (expected actual : String)
  | assertNoMd5Header
  deriving DecidableEq, Repr

/-- The mutable state the nested `finish` closure reads and writes: the
`finished` guard flag and the (possibly repeated) completion-callback
invocations. -/
structure FinishState where
  finished : Bool
  calls : List (Option FinishErr)
  deriving DecidableEq, Repr

/-- The `finish(err)` closure of `do_get_file` (part_002 lines 916-936): a
second entry returns immediately on the `finished` guard; the first entry
sets the guard, and — only when an md5 accumulator exists and no stream
error was passed — asserts the Content-MD5 header is present and replaces a
missing error by a DownloadError on digest mismatch; then it invokes the
completion callback once with the resulting error (or none). -/
def finishStep (ctx : GetFileCtx) (st : FinishState) (err : Option String) :
    FinishState :=
  if st.finished then st
  else
    let outcome : Option FinishErr :=
      if ctx.hasHash && err.isNone then
        match ctx.md5Expected with
        | none => some FinishErr.assertNoMd5Header
        | some expected =>
          if ctx.md5Actual ≠ expected then
            some (FinishErr.contentMd5Mismatch expected ctx.md5Actual)
          else none
      else
        err.map (fun e => FinishErr.streamErr e)
    FinishState.mk true (st.calls ++ [outcome])

/-- A whole transfer: the terminal events the underlying streams emit
(`finish`/`close` and `error` on the output stream, `error` on the source
stream), in the order they fire, each carrying the error argument it passes
to `finish`. -/
def runFinishEvents (ctx : GetFileCtx) (events : List (Option String)) :
    FinishState :=
  events.foldl (finishStep ctx) (FinishState.mk false [])

theorem finishStep_finished (ctx : GetFileCtx) (st : FinishState)
    (err : Option String) (h : st.finished = true) :
    finishStep ctx st err = st := by
  simp [finishStep, h]

theorem foldl_finishStep_finished (ctx : GetFileCtx) :
    ∀ (events : List (Option String)) (st : FinishState),
      st.finished = true → events.foldl (finishStep ctx) st = st := by
  intro events
  induction events with
  | nil => intro st h; rfl
  | cons e rest ih =>
      intro st h
      simp only [List.foldl, finishStep_finished ctx st e h]
      exact ih st h

/-- C3: the finish/verify action of a `get-file` transfer runs at most once
(exactly once as soon as any terminal event fires), whatever terminal
events the streams emit and in whatever order; in particular, when the
transfer ends cleanly with a digest mismatch, the ChecksumError-style
DownloadError is reported exactly once even if further terminal events
(such as a late error) fire afterwards. -/
theorem finish_runs_at_most_once (ctx : GetFileCtx)
    (events : List (Option String)) :
    (runFinishEvents ctx events).calls.length ≤ 1
    ∧ (events ≠ [] → (runFinishEvents ctx events).calls.length = 1)
    ∧ (∀ expected rest, ctx.hasHash = true →
        ctx.md5Expected = some expected → ctx.md5Actual ≠ expected →
        events = none :: rest →
        (runFinishEvents ctx events).calls
          = [some (FinishErr.contentMd5Mismatch expected ctx.md5Actual)]) := by
  have hstep : ∀ e : Option String,
      (finishStep ctx (FinishState.mk false []) e).finished = true := by
    intro e
    simp [finishStep]
  refine ⟨?_, ?_, ?_⟩
  · cases events with
    | nil => simp [runFinishEvents]
    | cons e rest =>
        have : runFinishEvents ctx (e :: rest)
            = finishStep ctx (FinishState.mk false []) e := by
          simp only [runFinishEvents, List.foldl]
          exact foldl_finishStep_finished ctx rest _ (hstep e)
        rw [this]
        simp [finishStep]
  · intro hne
    cases events with
    | nil => exact absurd rfl hne
    | cons e rest =>
        have : runFinishEvents ctx (e :: rest)
            = finishStep ctx (FinishState.mk false []) e := by
          simp only [runFinishEvents, List.foldl]
          exact foldl_finishStep_finished ctx rest _ (hstep e)
        rw [this]
        simp [finishStep]
  · intro expected rest hh hexp hne hev
    subst hev
    have : runFinishEvents ctx (none :: rest)
        = finishStep ctx (FinishState.mk false []) none := by
      simp only [runFinishEvents, List.foldl]
      exact foldl_finishStep_finished ctx rest _ (hstep none)
    rw [this]
    simp [finishStep, hh, hexp, hne]

/-- C3 witness: a transfer with declared digest mA and computed digest mB
that emits a clean end followed by a late error reports the mismatch
exactly once. -/
theorem finish_runs_at_most_once_witness :
    (runFinishEvents (GetFileCtx.mk true (some "mA") "mB")
        [none, some "late error"]).calls
      = [some (FinishErr.contentMd5Mismatch "mA" "mB")]
    ∧ (runFinishEvents (GetFileCtx.mk true (some "mA") "mB")
        [none, some "late error"]).calls.length ≤ 1 :=
  ⟨(finish_runs_at_most_once (GetFileCtx.mk true (some "mA") "mB")
      [none, some "late error"]).2.2 "mA" [some "late error"] rfl rfl
      (by decide) rfl,
    (finish_runs_at_most_once (GetFileCtx.mk true (some "mA") "mB")
      [none, some "late error"]).1⟩

/-- The verification errors of `do_add_file` after a successful upload
(part_002 lines 1783-1798): both are UploadErrors, with distinct
constructors and messages. -/
inductive UploadCheckErr where
  | sha1Mismatch (expected actual : String)
  | sizeMismatch (expected actual : Int)
  deriving DecidableEq, Repr

/-- The post-upload verification of `do_add_file`: the locally computed
SHA-1 is compared against the server-reported `image.files[0].sha1`, then
the local file size against the server-reported `image.files[0].size`; the
first mismatch is returned as the UploadError (the `if (sha1Hash)` guard of
the source is always taken since the accumulator is created
unconditionally). -/
def addFileVerify (expectedSha1 : String) (expectedSize : Int)
    (fileSha1 : String) (fileSize : Int) : Option UploadCheckErr :=
  if expectedSha1 ≠ fileSha1 then
    some (UploadCheckErr.sha1Mismatch expectedSha1 fileSha1)
  else if expectedSize ≠ fileSize then
    some (UploadCheckErr.sizeMismatch expectedSize fileSize)
  else none

/-- C4: integrity mismatches are reported only after the transfer otherwise
appeared to complete: a download that terminates with a stream error
reports that error (never a checksum error); a download that completes
cleanly with a Content-MD5 mismatch reports the DownloadError; an upload
whose locally computed SHA-1 differs from the server-reported one fails
with the sha1 UploadError; an upload whose sizes differ (with matching
SHA-1) fails with the size UploadError, an error distinct from every
checksum-mismatch error. -/
theorem transfer_integrity_mismatch_reporting :
    (∀ (ctx : GetFileCtx) (e : String),
      (runFinishEvents ctx [some e]).calls
        = [some (FinishErr.streamErr e)])
    ∧ (∀ (ctx : GetFileCtx) (expected : String), ctx.hasHash = true →
        ctx.md5Expected = some expected → ctx.md5Actual ≠ expected →
        (runFinishEvents ctx [none]).calls
          = [some (FinishErr.contentMd5Mismatch expected ctx.md5Actual)])
    ∧ (∀ (s1 s2 : String) (z1 z2 : Int), s1 ≠ s2 →
        addFileVerify s1 z1 s2 z2
          = some (UploadCheckErr.sha1Mismatch s1 s2))
    ∧ (∀ (s : String) (z1 z2 : Int), z1 ≠ z2 →
        addFileVerify s z1 s z2
          = some (UploadCheckErr.sizeMismatch z1 z2)
        ∧ ∀ a b : String,
            UploadCheckErr.sizeMismatch z1 z2
              ≠ UploadCheckErr.sha1Mismatch a b) := by
  refine ⟨?_, ?_, ?_, ?_⟩
  · intro ctx e
    simp [runFinishEvents, finishStep]
  · intro ctx expected hh hexp hne
    simp [runFinishEvents, finishStep, hh, hexp, hne]
  · intro s1 s2 z1 z2 hne
    simp [addFileVerify, hne]
  · intro s z1 z2 hne
    refine ⟨by simp [addFileVerify, hne], ?_⟩
    intro a b hcon
    exact UploadCheckErr.noConfusion hcon

/-- C4 witness: concrete instances of each reporting rule. -/
theorem transfer_integrity_mismatch_reporting_witness :
    (runFinishEvents (GetFileCtx.mk true (some "mA") "mB")
        [some "socket hang up"]).calls
      = [some (FinishErr.streamErr "socket hang up")]
    ∧ (runFinishEvents (GetFileCtx.mk true (some "mA") "mB") [none]).calls
      = [some (FinishErr.contentMd5Mismatch "mA" "mB")]
    ∧ addFileVerify "aaa" 10 "bbb" 10
      = some (UploadCheckErr.sha1Mismatch "aaa" "bbb")
    ∧ addFileVerify "aaa" 10 "aaa" 11
      = some (UploadCheckErr.sizeMismatch 10 11) :=
  ⟨transfer_integrity_mismatch_reporting.1
      (GetFileCtx.mk true (some "mA") "mB") "socket hang up",
   transfer_integrity_mismatch_reporting.2.1
      (GetFileCtx.mk true (some "mA") "mB") "mA" rfl rfl (by decide),
   transfer_integrity_mismatch_reporting.2.2.1 "aaa" "bbb" 10 10
      (by decide),
   (transfer_integrity_mismatch_reporting.2.2.2 "aaa" 10 11 (by decide)).1⟩

/-- An error object as the batch commands collect them: a `code` string and
a `message` string (every collected error is produced by
`_errorFromClientError`, all of whose results carry both). -/
structure ErrObj where
  code : String
  message : String
  deriving DecidableEq, Repr

/-- The identifiers in scope inside the module body of the latest
lib/errors.js (part_000 first file): its four `require` bindings, its
twelve function declarations, the CommonJS module locals, and the node
globals referenced anywhere in the file.  Neither `format` nor
`ImgadmError` is declared in this module (nor is either a node global), yet
the `MultiError` constructor body (part_000 lines 61-74) references
both. -/
def errorsModuleScope : List String :=
  ["util", "assert", "sprintf", "WError",
   "ImgapiCliError", "MultiError", "InternalError", "InvalidUUIDError",
   "InvalidManifestDataError", "UsageError", "UnknownOptionError",
   "UnknownCommandError", "ClientError", "APIError", "DownloadError",
   "UploadError",
   "require", "module", "exports", "Object", "String"]

/-- Does an identifier resolve in the errors-module scope? -/
def resolvesInErrors (name : String) : Bool :=
  errorsModuleScope.contains name

/-- Evaluation of a constructor body that may hit an unresolved
identifier. -/
inductive JsOutcome (α : Type) where
  | ok (a : α)
  | refError (name : String)
  deriving DecidableEq, Repr

/-- The `MultiError` constructor (part_000 lines 61-74), with its free
identifiers checked against the module scope in evaluation order:
`assert.arrayOfObject(errs)`, then `format('multiple (%d) errors', ...)`
building the message lines, then `ImgadmError.call(this, ...)`.  The
message it would build if all identifiers resolved is also embedded. -/
def mkMultiError (errs : List ErrObj) : JsOutcome ErrObj :=
  if !(resolvesInErrors "assert") then JsOutcome.refError "assert"
  else if !(resolvesInErrors "format") then JsOutcome.refError "format"
  else if !(resolvesInErrors "ImgadmError") then
    JsOutcome.refError "ImgadmError"
  else
    JsOutcome.ok
      (ErrObj.mk "MultiError"
        (String.intercalate "\n"
          (("multiple (" ++ toString errs.length ++ ") errors")
            :: errs.map (fun e =>
              "    error (" ++ e.code ++ "): " ++ e.message))))

/-- The outcome of a whole batch command invocation. -/
inductive BatchOutcome where
  | ok
  | single (e : ErrObj)
  | multi (m : ErrObj)
  | crashed (refName : String)
  deriving DecidableEq, Repr

/-- The completion callback of `do_channel_add` (part_002 lines 2277-2287;
`do_change_stor` lines 2332-2342 are identical): the per-target errors were
collected in order into `errs`; exactly one failure is surfaced unwrapped,
two or more are wrapped in `new errors.MultiError(errs)`, none is
success. -/
def channelAddFinish (errs : List ErrObj) : BatchOutcome :=
  match errs with
  | [] => BatchOutcome.ok
  | [e] => BatchOutcome.single e
  | es =>
    match mkMultiError es with
    | JsOutcome.ok m => BatchOutcome.multi m
    | JsOutcome.refError n => BatchOutcome.crashed n

/-- C5: the single-failure path is as claimed (the one error is surfaced
unwrapped), but the multi-failure path never surfaces a MultiError: the
`MultiError` constructor references the undefined identifiers `format` and
`ImgadmError`, so with two collected failures the invocation crashes with a
ReferenceError on `format` instead of failing once with a MultiError
containing both errors. -/
theorem channel_add_two_failures_crashes :
    channelAddFinish [ErrObj.mk "ClientError" "first failure"]
      = BatchOutcome.single (ErrObj.mk "ClientError" "first failure")
    ∧ channelAddFinish
        [ErrObj.mk "ClientError" "first failure",
         ErrObj.mk "ClientError" "second failure"]
      = BatchOutcome.crashed "format"
    ∧ resolvesInErrors "format" = false
    ∧ resolvesInErrors "ImgadmError" = false := by
  decide

/-- The IMGAPI client calls a command dispatches to; only the one relevant
to the claims is modelled. -/
inductive ClientCall where
  | getImage (uuid : String) (inclAdminFields : Bool)
  deriving DecidableEq, Repr

/-- The synchronously raised validation errors of a UUID-taking command. -/
inductive CliErr where
  | usageErr (msg : String)
  | invalidUUID (uuid : String)
  deriving DecidableEq, Repr

/-- The `code` attribute of the error classes of lib/errors.js
(part_000): UsageError has code Usage, InvalidUUIDError has code
InvalidUUID. -/
def cliErrCode : CliErr → String
  | CliErr.usageErr _ => "Usage"
  | CliErr.invalidUUID _ => "InvalidUUID"

/-- Split a character list on every occurrence of `sep`, the JS
`str.split(sep)`: n separators yield n+1 (possibly empty) parts. -/
def splitOnChar (sep : Char) : List Char → List (List Char)
  | [] => [[]]
  | c :: cs =>
    if c = sep then [] :: splitOnChar sep cs
    else
      match splitOnChar sep cs with
      | [] => [[c]]
      | p :: ps => (c :: p) :: ps

/-- Is the character one of `0-9a-f`? -/
def isLowerHex (c : Char) : Bool :=
  (48 ≤ c.toNat && c.toNat ≤ 57) || (97 ≤ c.toNat && c.toNat ≤ 102)

/-- The `UUID_RE` test (part_002 lines 45-50):
`^h{8}-h{4}-h{4}-h{4}-h{12}$` over lowercase hex digits h, equivalently
five hyphen-separated all-hex groups of lengths 8, 4, 4, 4, 12 (a hyphen is
not a hex digit, so the group decomposition is exact). -/
def isUuid (s : String) : Bool :=
  match splitOnChar (Char.ofNat 45) s.data with
  | [a, b, c, d, e] =>
    (a.length == 8) && (b.length == 4) && (c.length == 4) &&
    (d.length == 4) && (e.length == 12) &&
    (a ++ b ++ c ++ d ++ e).all isLowerHex
  | _ => false

/-- The message of InvalidUUIDError:
`sprintf('invalid uuid: "%s"', uuid)`. -/
def invalidUuidMessage (uuid : String) : String :=
  "invalid uuid: \"" ++ uuid ++ "\""

/-- `CLI.prototype.do_get` up to its client call (part_002 lines 827-841):
the argument-count check raises UsageError, then `assertUuid` throws
InvalidUUIDError, both synchronously; only then is
`this.client.getImage(uuid, getOpts, ...)` invoked.  The result pairs the
client calls made with the validation error raised (if any). -/
def doGet (inclAdminFields : Bool) (args : List String) :
    List ClientCall × Option CliErr :=
  match args with
  | [uuid] =>
    if isUuid uuid then
      ([ClientCall.getImage uuid inclAdminFields], none)
    else ([], some (CliErr.invalidUUID uuid))
  | _ =>
    ([], some (CliErr.usageErr
      ("incorrect number of args (" ++ toString args.length ++ "): "
        ++ String.intercalate " " args)))

/-- The per-target client call of `do_channel_add` (part_002 lines
2247-2276; `do_change_stor` lines 2300-2331 are identical with
`adminChangeStor`). -/
inductive ChCall where
  | channelAddImage (channel uuid : String)
  deriving DecidableEq, Repr

/-- The argument handling and fan-out of `do_channel_add` (part_002 lines
2247-2276): the only validation is the not-enough-arguments UsageError;
the image arguments are passed to `client.channelAddImage` WITHOUT any
`assertUuid` call, so a malformed UUID reaches the client with no
InvalidUUID error.  The result pairs the client calls made (one per image
argument, in order) with the validation error raised (if any). -/
def doChannelAddCalls (args : List String) : List ChCall × Option CliErr :=
  match args with
  | [] => ([], some (CliErr.usageErr "not enough arguments"))
  | channel :: uuids =>
    (uuids.map (fun u => ChCall.channelAddImage channel u), none)

/-- The observable steps of a `do_update` run, in order. -/
inductive UpdStep where
  | errUsage (msg : String)
  | errInvalidUUID (uuid : String)
  | clientGetImage (uuid : String)
  | errClient
  | parseManifest (data : String)
  | errInvalidManifestData
  | clientUpdateImage (uuid : String)
  deriving DecidableEq, Repr

/-- `CLI.prototype.do_update` as an ordered step trace (part_002 lines
1374-1460), for the single-argument file/stdin path: the argument checks
and `assertUuid` run synchronously, but then `self.client.getImage(uuid,
...)` — a network call — runs FIRST, and only inside its callback is the
manifest data read and `JSON.parse`d, raising InvalidManifestDataError
after the network call.  `dataStr` is the file/stdin content, `jsonOk` the
outcome of the external `JSON.parse` builtin on it, and `getImageOk`
whether the GetImage request succeeds. -/
def doUpdateTrace (fileOpt : Option String) (args : List String)
    (dataStr : String) (jsonOk : Bool) (getImageOk : Bool) :
    List UpdStep :=
  match args with
  | [] => [UpdStep.errUsage "expecting image UUID as first argument"]
  | uuid :: rest =>
    if rest ≠ [] ∧ fileOpt.isSome then
      [UpdStep.errUsage
        "Cannot provide -f|--file and property=value pairs at the same time"]
    else if ¬ isUuid uuid then [UpdStep.errInvalidUUID uuid]
    else
      UpdStep.clientGetImage uuid ::
        (if ¬ getImageOk then [UpdStep.errClient]
         else if rest ≠ [] then [UpdStep.clientUpdateImage uuid]
         else
           UpdStep.parseManifest dataStr ::
             (if jsonOk then [UpdStep.clientUpdateImage uuid]
              else [UpdStep.errInvalidManifestData]))

/-- C8 counterexample: the claim does not hold of every UUID-taking
command.  `channel-add` invokes the client on the malformed image argument
not-a-uuid with NO validation error at all (no InvalidUUID precedes the
client call); and `update` raises its JSON-manifest parse error only AFTER
the GetImage network call — the trace starts with the client call and the
InvalidManifestData failure comes later. -/
theorem uuid_validation_not_before_every_client_call :
    doChannelAddCalls ["staging", "not-a-uuid"]
      = ([ChCall.channelAddImage "staging" "not-a-uuid"], none)
    ∧ isUuid "not-a-uuid" = false
    ∧ doUpdateTrace none ["11111111-2222-3333-4444-555555555555"]
        "not json" false true
      = [UpdStep.clientGetImage "11111111-2222-3333-4444-555555555555",
         UpdStep.parseManifest "not json",
         UpdStep.errInvalidManifestData]
    ∧ (doUpdateTrace none ["11111111-2222-3333-4444-555555555555"]
        "not json" false true).head?
      = some (UpdStep.clientGetImage
          "11111111-2222-3333-4444-555555555555") := by
  refine ⟨rfl, by decide, by decide, by decide⟩

/-- C8 (amended): for the `get` command — the claim's cited `assertUuid`
path — validation errors are raised synchronously before any network call
to the IMGAPI client, with no partial side effects: an argument that does
not match the UUID format fails with an InvalidUUID error and no client
call happens at all. -/
theorem do_get_invalid_uuid_before_client_call (adm : Bool) (u : String)
    (h : isUuid u = false) :
    doGet adm [u] = ([], some (CliErr.invalidUUID u))
    ∧ (doGet adm [u]).1 = []
    ∧ cliErrCode (CliErr.invalidUUID u) = "InvalidUUID" := by
  refine ⟨?_, ?_, rfl⟩
  · simp [doGet, h]
  · simp [doGet, h]

/-- C8 witness: the non-UUID argument not-a-uuid raises InvalidUUID with no
client call. -/
theorem do_get_invalid_uuid_before_client_call_witness :
    doGet true ["not-a-uuid"] = ([], some (CliErr.invalidUUID "not-a-uuid"))
    ∧ cliErrCode (CliErr.invalidUUID "not-a-uuid") = "InvalidUUID" :=
  ⟨(do_get_invalid_uuid_before_client_call true "not-a-uuid" (by decide)).1,
   (do_get_invalid_uuid_before_client_call true "not-a-uuid" (by decide)).2.2⟩

/-- A flat record handed to the tabular formatter: string-valued fields; an
absent key is JS `undefined`. -/
abbrev Item := List (String × String)

/-- The options object of the local `tabulate` helpers: comma-separated
column list, header suppression, optional comma-separated sort key list,
and the comma-separated valid-field list. -/
structure TabOpts where
  columns : String
  skipHeader : Bool
  sort : Option String
  validFields : String
  deriving DecidableEq, Repr

/-- The errors the `tabulate` helpers throw: the two TypeErrors naming an
invalid field, and the TypeError from reading `.length` of `undefined` in
the width pass of the earliest revision. -/
inductive TabErr where
  | invalidOutputField (f : String)
  | invalidSortField (f : String)
  | undefinedLength
  deriving DecidableEq, Repr

/-- Comma-split of a field-list string, the `options.columns.split(',')`
of the sources. -/
def commaSplit (s : String) : List String :=
  (splitOnChar (Char.ofNat 44) s.data).map String.mk

/-- The shared validation pass of both `tabulate` revisions: every
requested column, then every sort key, must belong to the valid-field set;
the first offender is thrown as a TypeError naming it. -/
def tabValidate (o : TabOpts) : Option TabErr :=
  let validFields := commaSplit o.validFields
  let columns := commaSplit o.columns
  let sortFields :=
    match o.sort with
    | some s => commaSplit s
    | none => []
  match columns.find? (fun c => !(validFields.contains c)) with
  | some c => some (TabErr.invalidOutputField c)
  | none =>
    match sortFields.find? (fun s => !(validFields.contains s)) with
    | some s => some (TabErr.invalidSortField s)
    | none => none

/-- The display width a record contributes to a column.  In the earliest
revision this is `i[c].length` (whose `undefined` crash is checked
separately by `tabulateCliJs`); in the later revisions it is
`i[c] ? i[c].length : 0`, which agrees on every present value (the empty
string is falsy and has length 0). -/
def cellWidth (it : Item) (c : String) : Nat :=
  match lookupA it c with
  | some s => s.length
  | none => 0

/-- A column's display width: the maximum contribution over the records. -/
def colWidth (items : List Item) (c : String) : Nat :=
  items.foldl (fun w it => max w (cellWidth it c)) 0

/-- Left-justified padding to a column width, the extsprintf `%-Ws`
directive of the per-column row template. -/
def padRight (s : String) (w : Nat) : String :=
  s ++ String.mk (List.replicate (w - s.length) (Char.ofNat 32))

/-- One output row: each cell padded to its column width, cells joined by
the two-space gap of the template (the template's trailing gap is removed
by `.trim()`). -/
def renderRow (cells : List String) (widths : List Nat) : String :=
  String.intercalate "  " (List.zipWith padRight cells widths)

/-- A record's rendered cell for a column: `-` when the value is absent
(`null`/`undefined`), the value itself otherwise. -/
def renderCell (it : Item) (c : String) : String :=
  match lookupA it c with
  | some s => s
  | none => "-"

/-- Uppercase an ASCII letter, as `String.prototype.toUpperCase` does for
the header row. -/
def jsUpChar (c : Char) : Char :=
  if 97 ≤ c.toNat && c.toNat ≤ 122 then Char.ofNat (c.toNat - 32) else c

/-- JS `toUpperCase` over the ASCII strings of this code base. -/
def jsToUpper (s : String) : String :=
  String.mk (s.data.map jsUpChar)

/-- JS string comparison lifted to possibly-absent values: `undefined`
compares false against everything under `<`, so absent values fall through
to the next sort key. -/
def jsLtOpt : Option String → Option String → Bool
  | some x, some y => jsStrLt x y
  | _, _ => false

/-- The multi-key comparator `cmp` of the `tabulate` sources: iterate the
sort keys in order, a leading `-` requesting descending order for that key,
falling through to the next key on equality and to 0 when all keys are
equal.  (The `assert.ok(field.length)` on an empty key is not modelled; no
claim exercises it.) -/
def cmpItems : List String → Item → Item → Int
  | [], _, _ => 0
  | f :: rest, a, b =>
    let p : Bool × String :=
      match f.data with
      | '-' :: fs => (true, String.mk fs)
      | _ => (false, f)
    let av := lookupA a p.2
    let bv := lookupA b p.2
    if jsLtOpt av bv then (if p.1 then 1 else -1)
    else if jsLtOpt bv av then (if p.1 then -1 else 1)
    else cmpItems rest a b

/-- Insert keeping earlier-equal elements first (helper for the stable
sort). -/
def insertByCmp (cmp : Item → Item → Int) (x : Item) :
    List Item → List Item
  | [] => [x]
  | y :: rest =>
    if cmp x y ≤ 0 then x :: y :: rest else y :: insertByCmp cmp x rest

/-- Stable sort by the comparator, the `items.sort(cmp)` of the sources
(records equal under every key keep their input order, the behaviour the
spec describes). -/
def sortByCmp (cmp : Item → Item → Int) : List Item → List Item
  | [] => []
  | x :: rest => insertByCmp cmp x (sortByCmp cmp rest)

/-- The comma-split sort-key list of a `tabulate` call (empty when no sort
was requested). -/
def sortFieldsOf (o : TabOpts) : List String :=
  match o.sort with
  | some s => commaSplit s
  | none => []

/-- The records in output order: sorted by the multi-key comparator when
sort keys were given, the input order otherwise. -/
def sortedItems (items : List Item) (o : TabOpts) : List Item :=
  if (sortFieldsOf o).isEmpty then items
  else sortByCmp (cmpItems (sortFieldsOf o)) items

/-- The header portion of the output: one row of upper-cased column names
padded to the column widths, unless suppressed. -/
def tabHeader (items : List Item) (o : TabOpts) : List String :=
  if o.skipHeader then []
  else [renderRow ((commaSplit o.columns).map jsToUpper)
    ((commaSplit o.columns).map (colWidth items))]

/-- The common emission pass of both `tabulate` revisions: column widths
from all records, optional sort, header unless suppressed, then one padded
row per record. -/
def tabEmit (items : List Item) (o : TabOpts) : List String :=
  tabHeader items o
    ++ (sortedItems items o).map (fun it =>
        renderRow ((commaSplit o.columns).map (renderCell it))
          ((commaSplit o.columns).map (colWidth items)))

/-- The `tabulate` of the earliest revision (src/lib/cli.js lines 722-798):
NO empty-input short circuit — validation, widths (crashing with a
TypeError when a record lacks a requested column, since it reads
`i[c].length` unguarded), sort, header and rows run for every input. -/
def tabulateCliJs (items : List Item) (o : TabOpts) :
    Except TabErr (List String) :=
  match tabValidate o with
  | some e => Except.error e
  | none =>
    if items.any (fun it =>
        (commaSplit o.columns).any (fun c => (lookupA it c).isNone)) then
      Except.error TabErr.undefinedLength
    else Except.ok (tabEmit items o)

/-- The `tabulate` of the later revisions (part_001 lines 233-313 and
part_003): identical except that an empty record list short-circuits to no
output before validation, and the width pass guards absent values. -/
def tabulateRev2 (items : List Item) (o : TabOpts) :
    Except TabErr (List String) :=
  if items.isEmpty then Except.ok []
  else
    match tabValidate o with
    | some e => Except.error e
    | none => Except.ok (tabEmit items o)

theorem padRight_zero (s : String) : padRight s 0 = s := by
  simp [padRight]

theorem zipWith_padRight_zero (f : String → String) :
    ∀ cols : List String,
      List.zipWith padRight (cols.map f) (cols.map (colWidth []))
        = cols.map f := by
  intro cols
  induction cols with
  | nil => rfl
  | cons c rest ih =>
      simp only [List.map, List.zipWith, ih]
      rw [show colWidth [] c = 0 from rfl, padRight_zero]

theorem sortedItems_nil (o : TabOpts) : sortedItems [] o = [] := by
  unfold sortedItems
  split
  · rfl
  · rfl

theorem tabEmit_nil (o : TabOpts) :
    tabEmit [] o
      = if o.skipHeader then []
        else [String.intercalate "  "
          ((commaSplit o.columns).map jsToUpper)] := by
  unfold tabEmit
  rw [sortedItems_nil]
  simp only [List.map_nil, List.append_nil]
  unfold tabHeader
  cases hs : o.skipHeader with
  | true => rfl
  | false =>
      simp only [Bool.false_eq_true, if_false]
      unfold renderRow
      rw [zipWith_padRight_zero jsToUpper (commaSplit o.columns)]

/-- C6 counterexample: a `tabulate` call of this repository (the earliest
revision, src/lib/cli.js) on an EMPTY record list produces output — the
header row — refuting the claim that every tabulate call on an empty list
produces no output at all. -/
theorem tabulate_empty_cliJs_prints_header :
    tabulateCliJs [] (TabOpts.mk "uuid" false none "uuid")
      = Except.ok ["UUID"]
    ∧ (["UUID"] : List String) ≠ [] :=
  ⟨rfl, by decide⟩

/-- C6 (amended): the later revisions' `tabulate` (part_001/part_003)
produces no output at all on an empty record list, regardless of the
requested columns, sort keys or header-suppression flag; the earliest
revision (src/lib/cli.js) instead emits exactly the header row for an
empty list (nothing when the header is suppressed). -/
theorem tabulate_empty_no_output :
    (∀ o : TabOpts, tabulateRev2 [] o = Except.ok [])
    ∧ (∀ o : TabOpts, tabValidate o = none →
        tabulateCliJs [] o
          = Except.ok
              (if o.skipHeader then []
               else [String.intercalate "  "
                 ((commaSplit o.columns).map jsToUpper)])) := by
  constructor
  · intro o
    rfl
  · intro o hv
    unfold tabulateCliJs
    rw [hv]
    simp only [List.any_nil, Bool.false_eq_true, if_false]
    rw [tabEmit_nil]

/-- C6 witness: concrete instances — the later revision emits nothing for
an empty list even with columns, sort and a header requested; the earliest
revision emits the upper-cased header row. -/
theorem tabulate_empty_no_output_witness :
    tabulateRev2 [] (TabOpts.mk "uuid,name" false (some "name") "uuid,name")
      = Except.ok []
    ∧ tabulateCliJs [] (TabOpts.mk "uuid,name" false none "uuid,name")
      = Except.ok ["UUID  NAME"] := by
  constructor
  · exact tabulate_empty_no_output.1
      (TabOpts.mk "uuid,name" false (some "name") "uuid,name")
  · have h := tabulate_empty_no_output.2
      (TabOpts.mk "uuid,name" false none "uuid,name") (by decide)
    rw [h]
    rfl

end ImgapiCli
